import Mathlib

/-!
Verification of the client-side trusted-request layer of the SecureOps
frontend (VisionGuard construction-site safety dashboard).

The development shallowly embeds the relevant JavaScript source:

* the axios response interceptor with its 401 refresh-and-retry protocol
  (`api.js`);
* the in-memory token store and request-header attachment (`api.js`);
* the session controller `AuthProvider` with `initAuth`, `login`, `logout`
  (`AuthContext.jsx`);
* the upload file validation `validateFiles`, the selection handler
  `handleFileSelect`, and the job-status polling loop (`Dashboard.jsx`).

Stateful code becomes explicit state passing; network outcomes become
explicit parameters (`Except`/ad-hoc outcome types); JS exceptions become
`Except.error`.
-/

namespace SecureOps

/-- Test that the first character list starts the second. -/
def listStarts : List Char → List Char → Bool
  | [], _ => true
  | _ :: _, [] => false
  | a :: as, b :: bs => a == b && listStarts as bs

/-- Substring-occurrence test on character lists. -/
def listContains (sub : List Char) : List Char → Bool
  | [] => sub.isEmpty
  | c :: cs => listStarts sub (c :: cs) || listContains sub cs

/-- The substring test `String.prototype.includes` used by the source
(`originalRequest.url.includes("/auth/refresh")`). -/
def jsIncludes (s sub : String) : Bool :=
  listContains sub.data s.data

/-- The prefix test `String.prototype.startsWith` used by the source
(`file.type.startsWith("image/")`). -/
def jsStartsWith (s pre : String) : Bool :=
  listStarts pre.data s.data

/-- The ASCII uppercasing `String.prototype.toUpperCase` used by the
source (`data.status.toUpperCase()`). -/
def jsToUpper (s : String) : String :=
  String.mk (s.data.map Char.toUpper)

/-- A selected browser `File` as far as `validateFiles` can observe it:
its name (carrying the extension), declared size in bytes, and declared
MIME type. -/
structure JSFile where
  name : String
  size : Nat
  type : String
deriving DecidableEq, Repr

/-- One entry of the `LIMITS` table in `Dashboard.jsx`: size limit in MB,
allowed extensions (present in the source but never consulted), and the
accepted MIME prefix or exact type. -/
structure LimitRule where
  size : Nat
  ext : List String
  mime : String
deriving DecidableEq, Repr

/-- The `LIMITS` lookup table of `validateFiles` in `Dashboard.jsx`. -/
def LIMITS : String → Option LimitRule
  | "image" => some ⟨10, ["jpg", "jpeg", "png", "bmp"], "image/"⟩
  | "pdf" => some ⟨50, ["pdf"], "application/pdf"⟩
  | "video" => some ⟨100, ["mp4", "mov", "avi", "mkv"], "video/"⟩
  | _ => none

/-- `validateFiles(selected, type)` from `Dashboard.jsx`.  Returns
`.ok (some msg)` when the source returns an error string, `.ok none` when
it returns `null`, and `.error ()` for the one input class on which the
JS code would throw a `TypeError` (empty selection: `selected[0]` is
`undefined` and `file.size` faults).  The callers guard against the empty
selection. -/
def validateFiles (selected : List JSFile) (ty : String) : Except Unit (Option String) :=
  match LIMITS ty with
  | none => .ok (some "Unknown type")
  | some rule =>
    if selected.length > 1 then .ok (some "Please select only one file")
    else
      match selected with
      | [] => .error ()
      | file :: _ =>
        if file.size > rule.size * 1024 * 1024 then
          .ok (some ("File size exceeds " ++ toString rule.size ++ "MB limit"))
        else if ty == "pdf" && file.type != "application/pdf" then
          .ok (some "Invalid PDF file")
        else if ty == "image" && !(jsStartsWith file.type "image/") then
          .ok (some "Invalid image file")
        else if ty == "video" && !(jsStartsWith file.type "video/") then
          .ok (some "Invalid video file")
        else .ok none

/-- The size limit in MB the spec assigns to each known category. -/
def catLimitMB : String → Nat
  | "image" => 10
  | "pdf" => 50
  | "video" => 100
  | _ => 0

/-- Whether a declared MIME type matches a category's accepted
prefix/exact type, as the spec describes it. -/
def mimeAccepted (ty mimeTy : String) : Bool :=
  if ty == "pdf" then mimeTy == "application/pdf"
  else if ty == "image" then jsStartsWith mimeTy "image/"
  else if ty == "video" then jsStartsWith mimeTy "video/"
  else false

/-- An axios request as the response interceptor observes it: its URL and
the ad-hoc `_retry` flag the interceptor mutates in place. -/
structure AxiosReq where
  url : String
  retryFlag : Bool
deriving DecidableEq, Repr

/-- The error object handed to the response interceptor's rejection arm:
`error.response?.status` (absent on transport failures) and
`error.config`, the original request. -/
structure HttpError where
  status : Option Nat
  req : AxiosReq
deriving DecidableEq, Repr

/-- Outcome of the one refresh network call a handler run may issue
(`api.post("/auth/refresh")`): success carrying `data.access_token`, or
failure. -/
inductive RefreshResult where
  | ok (accessToken : String)
  | err
deriving DecidableEq, Repr

/-- What one execution of the response-error interceptor does with the
failed request: reject with the original error, reject with the refresh
error, or resend the (mutated) original request with a fresh bearer
token. -/
inductive HandlerOutcome where
  | rejectedOriginal
  | rejectedRefreshError
  | resent (req : AxiosReq) (bearer : String)
deriving DecidableEq, Repr

/-- The observable effect of one run of the response-error interceptor. -/
structure HandlerResult where
  refreshCalls : Nat
  tokenAfter : Option String
  outcome : HandlerOutcome
deriving DecidableEq, Repr

/-- The URL guard in the interceptor: the request is itself a refresh or
login call. -/
def isAuthEndpoint (u : String) : Bool :=
  jsIncludes u "/auth/refresh" || jsIncludes u "/auth/login"

/-- The response-error interceptor of `api.js`, run on one failed request.
`tok` is the current in-memory `_accessToken`; `refresh` is the outcome
the refresh endpoint would give this handler if it calls it.  On the
refresh-success path the source sets the token, rewrites the request's
`Authorization` header, and resends the original request (whose `_retry`
flag it has set); on refresh failure it clears the token and rejects with
the refresh error; in every other case it rejects with the original
error. -/
def responseErrorHandler (tok : Option String) (e : HttpError)
    (refresh : RefreshResult) : HandlerResult :=
  if e.status == some 401 && !e.req.retryFlag then
    if isAuthEndpoint e.req.url then
      ⟨0, tok, .rejectedOriginal⟩
    else
      match refresh with
      | .ok t => ⟨1, some t, .resent { e.req with retryFlag := true } t⟩
      | .err => ⟨1, none, .rejectedRefreshError⟩
  else ⟨0, tok, .rejectedOriginal⟩

/-- Total number of refresh network calls issued when each request in
`errs` concurrently receives its error and runs the interceptor.  The
source shares no in-flight marker between handler runs (the only shared
state, `_accessToken`, never influences whether a handler calls refresh),
so each run contributes its own count; each run is paired with the
outcome of its own refresh call. -/
def totalRefreshCalls (tok : Option String)
    (runs : List (HttpError × RefreshResult)) : Nat :=
  (runs.map (fun r => (responseErrorHandler tok r.1 r.2).refreshCalls)).sum

/-- A request is eligible for the refresh-and-retry path: it received a
401, has not been retried, and is not itself a login/refresh call. -/
def eligible401 (e : HttpError) : Bool :=
  e.status == some 401 && !e.req.retryFlag && !isAuthEndpoint e.req.url

/-- The request interceptor of `api.js`: the `Authorization` header value
attached to an outgoing request, when the in-memory token is present. -/
def requestAuthHeader (tok : Option String) : Option String :=
  tok.map (fun t => "Bearer " ++ t)

/-- The tri-state `isAuthenticated` flag of `AuthProvider`
(`null` = checking, `true`, `false`). -/
inductive AuthState where
  | checking
  | authenticated
  | unauthenticated
deriving DecidableEq, Repr

/-- The session-level state of `AuthProvider` together with the
process-wide in-memory access token of `api.js`. -/
structure Session where
  token : Option String
  user : Option String
  authState : AuthState
  loading : Bool
deriving DecidableEq, Repr

/-- The catch handler a rejected request (after a failed refresh inside
the interceptor) lands in: one of the three `AuthProvider` operations, or
one of the `Dashboard.jsx` handlers, which have no access to the session
state. -/
inductive FailureSite where
  | initAuthCall
  | loginCall
  | logoutCall
  | pollTick
  | dashboardFetch
deriving DecidableEq, Repr

/-- Combined effect on the session when a request's 401-triggered refresh
fails.  The interceptor's catch clears `_accessToken`; the rejection then
propagates to the caller's catch: `initAuth` sets unauthenticated, clears
the user and the token; `login`'s catch only sets unauthenticated;
`logout` proceeds to its unconditional cleanup; the `Dashboard.jsx`
polling tick and data-fetch catches only log (they cannot reach the
session state). -/
def afterRefreshFailure (s : Session) (site : FailureSite) : Session :=
  let s1 : Session := { s with token := none }
  match site with
  | .initAuthCall =>
      { s1 with authState := .unauthenticated, user := none, loading := false }
  | .loginCall => { s1 with authState := .unauthenticated }
  | .logoutCall =>
      { s1 with user := none, authState := .unauthenticated }
  | .pollTick => s1
  | .dashboardFetch => s1

/-- The `logout` operation of `AuthProvider`.  `netOk` is whether the
`POST /auth/logout` network call succeeds; on success the `SafetyAPI`
wrapper clears the token, on failure the catch only warns; afterwards the
operation unconditionally clears the token, the user, and sets
`isAuthenticated` to `false`. -/
def logoutRun (netOk : Bool) (s : Session) : Session :=
  let s1 : Session := if netOk then { s with token := none } else s
  { s1 with token := none, user := none, authState := .unauthenticated }

/-- The `initAuth` bootstrap of `AuthProvider`.  `refreshRes` is the
outcome of `SafetyAPI.refreshToken()` (`.ok tok?` carries
`data.access_token` when the response has one, which the wrapper stores);
`meRes` is the outcome of `SafetyAPI.getMe()`.  Any failure lands in the
catch (unauthenticated, user and token cleared, the error only logged);
the `finally` always sets `loading := false`. -/
def initAuth (refreshRes : Except Unit (Option String))
    (meRes : Except Unit String) (s : Session) : Session :=
  match refreshRes with
  | .error _ =>
      { s with authState := .unauthenticated, user := none, token := none,
               loading := false }
  | .ok tokenOpt =>
    let s1 : Session :=
      match tokenOpt with
      | some t => { s with token := some t }
      | none => s
    match meRes with
    | .error _ =>
        { s1 with authState := .unauthenticated, user := none, token := none,
                  loading := false }
    | .ok u =>
        { s1 with user := some u, authState := .authenticated,
                  loading := false }

/-- The `login` operation of `AuthProvider`.  `loginRes` is the outcome of
`SafetyAPI.login` carrying `data.access_token`; `meRes` the outcome of the
subsequent `SafetyAPI.getMe()`.  The boolean result records whether the
operation rethrows (the catch sets `isAuthenticated` to `false` and
rethrows, touching neither the user nor the token). -/
def loginRun (loginRes : Except Unit String) (meRes : Except Unit String)
    (s : Session) : Session × Bool :=
  match loginRes with
  | .error _ => ({ s with authState := .unauthenticated }, true)
  | .ok tok =>
    let s1 : Session := { s with token := some tok }
    match meRes with
    | .error _ => ({ s1 with authState := .unauthenticated }, true)
    | .ok u => ({ s1 with user := some u, authState := .authenticated }, false)

/-- The polling interval of the upload-status `setInterval` in
`Dashboard.jsx`, in milliseconds. -/
def pollIntervalMs : Nat := 2000

/-- The outcome of `SafetyAPI.getStatus(uploadId)` on one polling tick:
the fetched `data.status` string, or a thrown (transport) error. -/
inductive FetchResult where
  | ok (status : String)
  | err
deriving DecidableEq, Repr

/-- The upload-workflow component state touched by the polling tick in
`Dashboard.jsx`: the UI `status` string, the `error` message, and whether
`onUploadComplete` has been signalled. -/
structure PollState where
  status : String
  error : Option String
  notified : Bool
deriving DecidableEq, Repr

/-- One tick of the polling `setInterval` callback in `Dashboard.jsx`.
Returns the updated state and whether the tick cleared the interval
(stopped polling).  A thrown fetch error is logged and swallowed; the
fetched status is uppercased and dispatched: `PENDING`/`PROCESSING` keep
`PROCESSING`; `COMPLETED` and `FAILED` are terminal and clear the
interval; any other string matches no branch and changes nothing. -/
def pollTick (s : PollState) (f : FetchResult) : PollState × Bool :=
  match f with
  | .err => (s, false)
  | .ok st =>
    let u := jsToUpper st
    if u == "PENDING" || u == "PROCESSING" then
      ({ s with status := "PROCESSING" }, false)
    else if u == "COMPLETED" then
      ({ s with status := "COMPLETED", notified := true }, true)
    else if u == "FAILED" then
      ({ s with status := "FAILED", error := some "Processing failed on server." }, true)
    else (s, false)

/-- The polling-relevant component state across the whole effect
lifecycle of `Dashboard.jsx` (useEffect with dependency array
`[uploadId, status, onUploadComplete]`), for a mounted `Upload` with
`uploadId` set: the UI `status`, the `error` message, how many times
`onUploadComplete` has fired, how many `getStatus` fetches have been
issued, and whether an interval is currently scheduled. -/
structure PollLoop where
  status : String
  error : Option String
  completions : Nat
  fetches : Nat
  intervalLive : Bool
deriving DecidableEq, Repr

/-- One poll tick together with the React render that follows it.  The
tick callback runs `pollTick` (fetch counted even when the fetch throws;
a terminal branch clears the current interval and `COMPLETED` fires
`onUploadComplete`).  The effect then re-runs when one of its
dependencies changed: `status` when the tick wrote a new value, or the
`onUploadComplete` identity (`cbChanged` — the parent recreates the
handler on every one of its re-renders).  A re-run first disposes any
current interval, then its guards skip only a missing `uploadId` (not
the case here) and `status === "FAILED"`; for every other status,
`COMPLETED` included, it schedules a fresh interval. -/
def pollStep (s : PollLoop) (f : FetchResult) (cbChanged : Bool) : PollLoop :=
  if !s.intervalLive then s
  else
    let t := pollTick ⟨s.status, s.error, false⟩ f
    let afterTick : PollLoop :=
      { status := t.1.status, error := t.1.error,
        completions := s.completions + (if t.1.notified then 1 else 0),
        fetches := s.fetches + 1,
        intervalLive := !t.2 }
    if afterTick.status != s.status || cbChanged then
      { afterTick with intervalLive := afterTick.status != "FAILED" }
    else afterTick

/-- The upload component state touched by `handleFileSelect` in
`Dashboard.jsx`. -/
structure UploadState where
  files : List JSFile
  error : Option String
  status : String
  uploadId : Option String
deriving DecidableEq, Repr

/-- `handleFileSelect` from `Dashboard.jsx`: an empty selection returns
immediately; a validation error only sets the error message; a valid
selection clears the error and stores the files.  (The `.error` arm of
`validateFiles` is unreachable here: it only arises for an empty
selection, which the guard has already returned on.) -/
def handleFileSelect (selected : List JSFile) (selectedType : String)
    (s : UploadState) : UploadState :=
  if selected.length == 0 then s
  else
    match validateFiles selected selectedType with
    | .error _ => s
    | .ok (some e) => { s with error := some e }
    | .ok none => { s with error := none, files := selected }

/-- C6: every execution of `logout()`, whether or not the logout network
call succeeds, terminates with the access token absent, the cached user
absent, and the session unauthenticated. -/
theorem logout_always_clears_session (netOk : Bool) (s : Session) :
    (logoutRun netOk s).token = none ∧ (logoutRun netOk s).user = none ∧
      (logoutRun netOk s).authState = .unauthenticated := by
  cases netOk <;> simp [logoutRun]

/-- C7: `initAuth` always terminates with `loading = false`; a failing
refresh or profile fetch ends unauthenticated with user and token absent
(the error is only logged, never surfaced); success of both ends
authenticated with the fetched profile stored. -/
theorem initAuth_bootstrap_spec (refreshRes : Except Unit (Option String))
    (meRes : Except Unit String) (tokenOpt : Option String) (t u : String)
    (s : Session) :
    (initAuth refreshRes meRes s).loading = false ∧
    initAuth (.error ()) meRes s =
      { s with authState := .unauthenticated, user := none, token := none,
               loading := false } ∧
    initAuth (.ok tokenOpt) (.error ()) s =
      { s with authState := .unauthenticated, user := none, token := none,
               loading := false } ∧
    initAuth (.ok (some t)) (.ok u) s =
      { s with token := some t, user := some u, authState := .authenticated,
               loading := false } := by
  refine ⟨?_, ?_, ?_, ?_⟩
  · rcases refreshRes with _ | tokOpt
    · simp [initAuth]
    · rcases meRes with _ | v <;> rcases tokOpt with _ | w <;> simp [initAuth]
  · simp [initAuth]
  · rcases tokenOpt with _ | w <;> simp [initAuth]
  · simp [initAuth]

/-- C9: when the login endpoint succeeds but the subsequent profile fetch
fails, `login` rethrows with the session unauthenticated and no user,
while the freshly issued access token stays in the token store: the
operation is not atomic with respect to the credential store. -/
theorem login_nonatomic_on_profile_failure (tok : String) (s : Session)
    (h : s.user = none) :
    (loginRun (.ok tok) (.error ()) s).2 = true ∧
    (loginRun (.ok tok) (.error ()) s).1.authState = .unauthenticated ∧
    (loginRun (.ok tok) (.error ()) s).1.user = none ∧
    (loginRun (.ok tok) (.error ()) s).1.token = some tok := by
  simp [loginRun, h]

/-- Concrete instance of `login_nonatomic_on_profile_failure`: logging in
from the unauthenticated start state with a failing profile fetch. -/
theorem login_nonatomic_on_profile_failure_witness :
    (loginRun (.ok "tok") (.error ()) ⟨none, none, .unauthenticated, false⟩).2 = true ∧
    (loginRun (.ok "tok") (.error ()) ⟨none, none, .unauthenticated, false⟩).1.authState = .unauthenticated ∧
    (loginRun (.ok "tok") (.error ()) ⟨none, none, .unauthenticated, false⟩).1.user = none ∧
    (loginRun (.ok "tok") (.error ()) ⟨none, none, .unauthenticated, false⟩).1.token = some "tok" :=
  login_nonatomic_on_profile_failure "tok" ⟨none, none, .unauthenticated, false⟩ rfl

/-- C2 counterexample: it is not the case that every refresh failure
drives the session's `authState` to unauthenticated — a refresh failure
during a polling tick leaves an authenticated session authenticated (the
`Dashboard.jsx` catch only logs and has no access to the session). -/
theorem refresh_failure_authstate_cex :
    ¬ (∀ (s : Session) (site : FailureSite),
        (afterRefreshFailure s site).authState = .unauthenticated) := by
  intro h
  have h2 := h ⟨some "tok", some "alice", .authenticated, false⟩ .pollTick
  simp [afterRefreshFailure] at h2

/-- C2 amended: every refresh failure clears the stored token, so no
subsequent request carries a bearer header; the session transitions to
unauthenticated only when the failure lands in an `AuthProvider`
operation (`initAuth`, `login`, `logout`), while a failure during a
Dashboard polling tick or data fetch leaves `authState` unchanged. -/
theorem refresh_failure_effects (s : Session) (site : FailureSite) :
    (afterRefreshFailure s site).token = none ∧
    requestAuthHeader (afterRefreshFailure s site).token = none ∧
    (afterRefreshFailure s .initAuthCall).authState = .unauthenticated ∧
    (afterRefreshFailure s .loginCall).authState = .unauthenticated ∧
    (afterRefreshFailure s .logoutCall).authState = .unauthenticated ∧
    (afterRefreshFailure s .pollTick).authState = s.authState ∧
    (afterRefreshFailure s .dashboardFetch).authState = s.authState := by
  cases site <;> simp [afterRefreshFailure, requestAuthHeader]

/-- C1 counterexample: it is false that any number of concurrently
401-rejected requests issues exactly one refresh call — two eligible
requests issue two refresh calls, because the interceptor shares no
in-flight marker between handler runs. -/
theorem single_flight_refresh_cex :
    ¬ (∀ (runs : List (HttpError × RefreshResult)),
        (∀ r ∈ runs, eligible401 r.1 = true) → 1 ≤ runs.length →
        totalRefreshCalls none runs = 1) := by
  intro h
  have h2 := h
    [(⟨some 401, ⟨"/videos/upload", false⟩⟩, .ok "t1"),
     (⟨some 401, ⟨"/videos/7/status", false⟩⟩, .ok "t2")]
    (by decide) (by decide)
  exact absurd h2 (by decide)

/-- Each eligible 401 handler run issues exactly one refresh call. -/
theorem eligible_handler_one_refresh (tok : Option String) (e : HttpError)
    (refresh : RefreshResult) (h : eligible401 e = true) :
    (responseErrorHandler tok e refresh).refreshCalls = 1 := by
  simp only [eligible401, Bool.and_eq_true, Bool.not_eq_true'] at h
  rcases h with ⟨⟨h1, h2⟩, h3⟩
  cases refresh <;> simp [responseErrorHandler, h1, h2, h3]

/-- C1 amended: N requests that concurrently receive a 401 issue N
refresh calls — one each, with no de-duplication — and each request that
gets a successful refresh resolves using the token of its own refresh
response. -/
theorem refresh_not_single_flight (tok : Option String)
    (runs : List (HttpError × RefreshResult))
    (h : ∀ r ∈ runs, eligible401 r.1 = true) :
    totalRefreshCalls tok runs = runs.length ∧
    (∀ r ∈ runs, ∀ t, r.2 = .ok t →
      responseErrorHandler tok r.1 r.2 =
        ⟨1, some t, .resent { r.1.req with retryFlag := true } t⟩) := by
  constructor
  · induction runs with
    | nil => rfl
    | cons r rs ih =>
      have hr := h r (by simp)
      have hrest := ih (fun x hx => h x (by simp [hx]))
      simp only [totalRefreshCalls, List.map_cons, List.sum_cons] at hrest ⊢
      rw [eligible_handler_one_refresh tok r.1 r.2 hr, hrest]
      simp [Nat.add_comm]
  · intro r hr t ht
    have he := h r hr
    simp only [eligible401, Bool.and_eq_true] at he
    rcases he with ⟨⟨h1, h2⟩, h3⟩
    rw [ht]
    simp [responseErrorHandler, h1, h2]
    simp_all

/-- Concrete instance of `refresh_not_single_flight`: two concurrent
401s issue two refresh calls. -/
theorem refresh_not_single_flight_witness :
    totalRefreshCalls none
      [(⟨some 401, ⟨"/videos/upload", false⟩⟩, .ok "t1"),
       (⟨some 401, ⟨"/videos/7/status", false⟩⟩, .ok "t2")] = 2 :=
  (refresh_not_single_flight none
    [(⟨some 401, ⟨"/videos/upload", false⟩⟩, .ok "t1"),
     (⟨some 401, ⟨"/videos/7/status", false⟩⟩, .ok "t2")]
    (by decide)).1

/-- C5: evaluation of the effect-lifecycle model at the failing input.
On an in-progress job (status `PROCESSING`, interval scheduled), the
first `completed` tick clears its interval, but writing status
`COMPLETED` re-fires the effect — whose guard skips only `FAILED` — so a
fresh interval is scheduled and polling does not stop: whether or not
the `onUploadComplete` identity changed, the state after the first
`completed` tick still has a live interval, and a second tick issues
another `getStatus` fetch and fires `onUploadComplete` a second time
(continuing further whenever the callback identity keeps changing, which
the parent's re-renders cause).  A `failed` tick, by contrast, stops
polling for good in every case, as the claim demands. -/
theorem completed_tick_restarts_polling :
    pollStep ⟨"PROCESSING", none, 0, 0, true⟩ (.ok "completed") false =
      ⟨"COMPLETED", none, 1, 1, true⟩ ∧
    pollStep ⟨"PROCESSING", none, 0, 0, true⟩ (.ok "completed") true =
      ⟨"COMPLETED", none, 1, 1, true⟩ ∧
    pollStep ⟨"COMPLETED", none, 1, 1, true⟩ (.ok "completed") false =
      ⟨"COMPLETED", none, 2, 2, false⟩ ∧
    pollStep ⟨"COMPLETED", none, 1, 1, true⟩ (.ok "completed") true =
      ⟨"COMPLETED", none, 2, 2, true⟩ ∧
    pollStep ⟨"PROCESSING", none, 0, 0, true⟩ (.ok "failed") false =
      ⟨"FAILED", some "Processing failed on server.", 0, 1, false⟩ ∧
    pollStep ⟨"PROCESSING", none, 0, 0, true⟩ (.ok "failed") true =
      ⟨"FAILED", some "Processing failed on server.", 0, 1, false⟩ :=
  ⟨rfl, rfl, rfl, rfl, rfl, rfl⟩

/-- C8: a fetched status whose uppercased form is none of `PENDING`,
`PROCESSING`, `COMPLETED`, `FAILED` matches no branch of the dispatch:
the tick leaves the component state unchanged and does not stop
polling. -/
theorem unrecognized_status_tick_is_noop (s : PollState) (st : String)
    (h1 : jsToUpper st ≠ "PENDING") (h2 : jsToUpper st ≠ "PROCESSING")
    (h3 : jsToUpper st ≠ "COMPLETED") (h4 : jsToUpper st ≠ "FAILED") :
    pollTick s (.ok st) = (s, false) := by
  simp [pollTick, h1, h2, h3, h4]

/-- Concrete instance of `unrecognized_status_tick_is_noop`: the status
string `queued` is not recognized and the tick is a no-op. -/
theorem unrecognized_status_tick_is_noop_witness :
    pollTick ⟨"PROCESSING", none, false⟩ (.ok "queued") =
      (⟨"PROCESSING", none, false⟩, false) :=
  unrecognized_status_tick_is_noop ⟨"PROCESSING", none, false⟩ "queued"
    (by decide) (by decide) (by decide) (by decide)

/-- C3: a first 401 on an ordinary request triggers exactly one
refresh-and-resend, and the resent request carries the `_retry` mark; a
second 401 arriving on that already-retried request (or on any request
marked retried) is rejected outright with no further refresh or resend;
and a 401 on a request whose URL is the login or refresh endpoint is
never retried at all. -/
theorem gateway_401_retry_protocol (tok : Option String) (e : HttpError)
    (t : String) (h401 : e.status = some 401) :
    (e.req.retryFlag = false → isAuthEndpoint e.req.url = false →
      responseErrorHandler tok e (.ok t) =
        ⟨1, some t, .resent { e.req with retryFlag := true } t⟩ ∧
      (∀ (tok2 : Option String) (refresh2 : RefreshResult),
        responseErrorHandler tok2
          ⟨some 401, { e.req with retryFlag := true }⟩ refresh2 =
          ⟨0, tok2, .rejectedOriginal⟩)) ∧
    (e.req.retryFlag = true →
      ∀ refresh, responseErrorHandler tok e refresh = ⟨0, tok, .rejectedOriginal⟩) ∧
    (isAuthEndpoint e.req.url = true →
      ∀ refresh, responseErrorHandler tok e refresh = ⟨0, tok, .rejectedOriginal⟩) := by
  refine ⟨fun hr ha => ⟨?_, fun tok2 refresh2 => ?_⟩, fun hr refresh => ?_,
          fun ha refresh => ?_⟩
  · simp [responseErrorHandler, h401, hr, ha]
  · simp [responseErrorHandler]
  · simp [responseErrorHandler, hr]
  · cases hf : e.req.retryFlag <;> simp [responseErrorHandler, h401, hf, ha]

/-- Concrete instance of `gateway_401_retry_protocol`: a 401 on an
ordinary request is resent once with the retry mark; the marked request
is rejected on a second 401; and a 401 on the refresh endpoint is not
retried. -/
theorem gateway_401_retry_protocol_witness :
    (responseErrorHandler (some "old") ⟨some 401, ⟨"/videos/upload", false⟩⟩ (.ok "new") =
      ⟨1, some "new", .resent ⟨"/videos/upload", true⟩ "new"⟩ ∧
      (∀ (tok2 : Option String) (refresh2 : RefreshResult),
        responseErrorHandler tok2 ⟨some 401, ⟨"/videos/upload", true⟩⟩ refresh2 =
          ⟨0, tok2, .rejectedOriginal⟩)) ∧
    (responseErrorHandler (some "old") ⟨some 401, ⟨"/api/v1/auth/refresh", false⟩⟩ (.ok "new") =
      ⟨0, some "old", .rejectedOriginal⟩) := by
  have h := gateway_401_retry_protocol (some "old")
    ⟨some 401, ⟨"/videos/upload", false⟩⟩ "new" rfl
  have h2 := gateway_401_retry_protocol (some "old")
    ⟨some 401, ⟨"/api/v1/auth/refresh", false⟩⟩ "new" rfl
  exact ⟨h.1 rfl (by decide), h2.2.2 (by decide) (.ok "new")⟩

/-- C10: when a nonempty selection fails validation only the error
message is written (the previously stored selection, status, and upload
id are untouched); when it passes, the error is cleared and the new
selection replaces the old one. -/
theorem handleFileSelect_frame (selected : List JSFile) (ty : String)
    (s : UploadState) (hne : selected ≠ []) :
    (∀ e, validateFiles selected ty = .ok (some e) →
      handleFileSelect selected ty s = { s with error := some e }) ∧
    (validateFiles selected ty = .ok none →
      handleFileSelect selected ty s = { s with error := none, files := selected }) := by
  have hlen : (selected.length == 0) = false := by
    simp [List.length_eq_zero, hne]
  constructor
  · intro e he
    simp [handleFileSelect, hlen, he]
  · intro he
    simp [handleFileSelect, hlen, he]

/-- Concrete instance of `handleFileSelect_frame`: a wrongly typed file
only sets the error, leaving the stored selection untouched. -/
theorem handleFileSelect_frame_witness :
    handleFileSelect [⟨"a.txt", 1, "text/plain"⟩] "image"
        ⟨[⟨"old.png", 2, "image/png"⟩], none, "IDLE", none⟩ =
      ⟨[⟨"old.png", 2, "image/png"⟩], some "Invalid image file", "IDLE", none⟩ :=
  (handleFileSelect_frame [⟨"a.txt", 1, "text/plain"⟩] "image"
      ⟨[⟨"old.png", 2, "image/png"⟩], none, "IDLE", none⟩ (by decide)).1
    "Invalid image file" rfl

/-- C4: on a nonempty selection and a known category, validation fails
exactly when more than one file is supplied, or the first file's size
exceeds the category's limit (10/50/100 MB), or its declared MIME type
does not match the category's accepted prefix/exact type; an oversized
image gets the size-limit message; a non-image MIME type is rejected for
the image category; and the verdict never depends on the file's name
(hence not on its extension). -/
theorem validateFiles_spec (selected : List JSFile) (ty : String) (f : JSFile)
    (hty : ty = "image" ∨ ty = "pdf" ∨ ty = "video")
    (hhd : selected.head? = some f) :
    ((∃ e, validateFiles selected ty = .ok (some e)) ↔
      (1 < selected.length ∨ catLimitMB ty * 1024 * 1024 < f.size ∨
        mimeAccepted ty f.type = false)) ∧
    (10 * 1024 * 1024 < f.size →
      validateFiles [f] "image" = .ok (some "File size exceeds 10MB limit")) ∧
    (jsStartsWith f.type "image/" = false →
      ∃ e, validateFiles [f] "image" = .ok (some e)) ∧
    (∀ otherName, validateFiles [{ f with name := otherName }] ty =
      validateFiles [f] ty) := by
  cases selected with
  | nil => simp at hhd
  | cons g rest =>
  have hg : f = g := by simpa using hhd.symm
  subst hg
  refine ⟨?_, ?_, ?_, ?_⟩
  · rcases hty with rfl | rfl | rfl
    · by_cases hlen : 1 < (f :: rest).length
      · have h0 : 0 < rest.length := by simp at hlen; omega
        simp [validateFiles, LIMITS, h0]
      · have hrest : rest = [] := by
          cases rest with
          | nil => rfl
          | cons a l => exact absurd (by simp) hlen
        subst hrest
        by_cases hs : 10 * 1024 * 1024 < f.size
        · simp_all [validateFiles, LIMITS, catLimitMB]
        · have hs3 : ¬ 10485760 < f.size := by omega
          by_cases hm : jsStartsWith f.type "image/" = true <;>
            simp [validateFiles, LIMITS, catLimitMB, mimeAccepted, hs3, hm]
    · by_cases hlen : 1 < (f :: rest).length
      · have h0 : 0 < rest.length := by simp at hlen; omega
        simp [validateFiles, LIMITS, h0]
      · have hrest : rest = [] := by
          cases rest with
          | nil => rfl
          | cons a l => exact absurd (by simp) hlen
        subst hrest
        by_cases hs : 50 * 1024 * 1024 < f.size
        · simp_all [validateFiles, LIMITS, catLimitMB]
        · have hs3 : ¬ 52428800 < f.size := by omega
          by_cases hm : f.type = "application/pdf" <;>
            simp [validateFiles, LIMITS, catLimitMB, mimeAccepted, hs3, hm]
    · by_cases hlen : 1 < (f :: rest).length
      · have h0 : 0 < rest.length := by simp at hlen; omega
        simp [validateFiles, LIMITS, h0]
      · have hrest : rest = [] := by
          cases rest with
          | nil => rfl
          | cons a l => exact absurd (by simp) hlen
        subst hrest
        by_cases hs : 100 * 1024 * 1024 < f.size
        · simp_all [validateFiles, LIMITS, catLimitMB]
        · have hs3 : ¬ 104857600 < f.size := by omega
          by_cases hm : jsStartsWith f.type "video/" = true <;>
            simp [validateFiles, LIMITS, catLimitMB, mimeAccepted, hs3, hm]
  · intro hs
    have h2 : validateFiles [f] "image" =
        .ok (some ("File size exceeds " ++ toString 10 ++ "MB limit")) := by
      simp [validateFiles, LIMITS, hs]
    exact h2.trans (by rfl)
  · intro hm
    by_cases hs : (10 : Nat) * 1024 * 1024 < f.size <;>
      simp [validateFiles, LIMITS, hs, hm]
  · intro otherName
    rcases hty with rfl | rfl | rfl <;> rfl

/-- C4 counterexample: on the empty file list the code returns no verdict
at all — `selected[0]` is `undefined` and `file.size` throws a
`TypeError` — whereas the claim, read at the empty list (no file count,
size, or type violation), promises the no-error verdict. -/
theorem validateFiles_empty_throws_cex :
    validateFiles [] "image" = .error () ∧
    ∀ r, validateFiles [] "image" ≠ .ok r := by
  refine ⟨rfl, fun r h => ?_⟩
  simp [validateFiles, LIMITS] at h

/-- Concrete instance of `validateFiles_spec` at a small PNG image. -/
theorem validateFiles_spec_witness :
    ((∃ e, validateFiles [⟨"a.png", 5, "image/png"⟩] "image" = .ok (some e)) ↔
      (1 < ([⟨"a.png", 5, "image/png"⟩] : List JSFile).length ∨
        catLimitMB "image" * 1024 * 1024 < 5 ∨
        mimeAccepted "image" "image/png" = false)) ∧
    (10 * 1024 * 1024 < 5 →
      validateFiles [⟨"a.png", 5, "image/png"⟩] "image" =
        .ok (some "File size exceeds 10MB limit")) ∧
    (jsStartsWith "image/png" "image/" = false →
      ∃ e, validateFiles [⟨"a.png", 5, "image/png"⟩] "image" = .ok (some e)) ∧
    (∀ otherName,
      validateFiles [⟨otherName, 5, "image/png"⟩] "image" =
        validateFiles [⟨"a.png", 5, "image/png"⟩] "image") :=
  validateFiles_spec [⟨"a.png", 5, "image/png"⟩] "image" ⟨"a.png", 5, "image/png"⟩
    (Or.inl rfl) rfl

end SecureOps
